import Mathlib

/-!
Verification of the Face_AI attendance service core: the gallery-scan
verification engine (`face_engine.verify_face`), the HTTP handlers in
`main.py` (`/api/verify`, `/api/register`, `/api/registered`,
`/verify-face`), and the surrounding error-handling, audit and
enrollment-normalization contracts.

Strings from the Python source are modelled as `List Char` (`Str`), so
that Python's character-wise `str.replace` / `str.strip` / `str.lower`
operations have faithful, kernel-evaluable counterparts.  Distances and
confidences are modelled as rationals.  The DeepFace embedding oracle is
an external collaborator and enters the model as a function parameter
returning either a comparison outcome or an exception.
-/

namespace FaceAI

/-- Strings of the Python source, modelled character by character. -/
abbrev Str := List Char

/-- Convert a Lean string literal to the character-list model. -/
def strOf (s : String) : Str := s.data

/-- Modelled from the spec: `constants.py` is not under `src/`.  The spec
fixes the decision threshold as "a fixed configuration constant, default
0.4, semantically lower is more similar". -/
def FACE_DISTANCE_THRESHOLD : ℚ := 2/5

/-- Modelled from the spec: `constants.py` is not under `src/`.  The spec
fixes the extension allow-list as `{.jpg, .jpeg, .png}` (case-insensitive),
and `main.list_registered_faces` hard-codes the same tuple. -/
def SUPPORTED_IMAGE_FORMATS : List Str := [strOf ".jpg", strOf ".jpeg", strOf ".png"]

/-- Python `s.lower()`: character-wise lowercasing. -/
def lowerStr (s : Str) : Str := s.map Char.toLower

/-- Python `person.lower().endswith(SUPPORTED_IMAGE_FORMATS)`
(`face_engine.py` line 11): true when the lowercased name ends with one of
the allow-listed extensions. -/
def isImageEntry (person : Str) : Bool :=
  SUPPORTED_IMAGE_FORMATS.any (fun ext => ext.isSuffixOf (lowerStr person))

/-- Outcome of one `DeepFace.verify` call: the `verified` verdict and the
`distance` of the two embeddings. -/
structure VerifyOutcome where
  verified : Bool
  distance : ℚ
deriving DecidableEq

/-- The per-identity embedding oracle for one request: given the gallery
entry (reference file name), either a comparison outcome or a raised
exception (`Except.error`), the input capture being fixed per request. -/
abbrev Oracle := Str → Except Unit VerifyOutcome

/-- The dict returned by `face_engine.verify_face`: keys `verified`,
`matched_with`, `score`. -/
structure VerificationResult where
  verified : Bool
  matched_with : Option Str
  score : Option ℚ
deriving DecidableEq

/-- `face_engine.verify_face` (lines 8-29), instrumented with the list of
gallery entries for which the oracle was actually invoked (in call
order).  Non-image entries are skipped without an oracle call; an oracle
exception is logged and the scan continues; the first entry with
`verified` and `distance < FACE_DISTANCE_THRESHOLD` is returned
immediately; a full scan with no hit returns
`{verified: False, matched_with: None, score: None}`. -/
def verify_face_run (oracle : Oracle) : List Str → VerificationResult × List Str
  | [] => (⟨false, none, none⟩, [])
  | person :: rest =>
    if isImageEntry person then
      match oracle person with
      | .ok r =>
        if r.verified && decide (r.distance < FACE_DISTANCE_THRESHOLD) then
          (⟨true, some person, some r.distance⟩, [person])
        else
          let (res, calls) := verify_face_run oracle rest
          (res, person :: calls)
      | .error _ =>
        let (res, calls) := verify_face_run oracle rest
        (res, person :: calls)
    else verify_face_run oracle rest

/-- The result component of `face_engine.verify_face`. -/
def verify_face (oracle : Oracle) (listing : List Str) : VerificationResult :=
  (verify_face_run oracle listing).1

/-- An identity hit: an image entry whose oracle comparison succeeds with
`verified` and a distance below the threshold (`face_engine.py` line 21). -/
def hitEntry (oracle : Oracle) (person : Str) : Prop :=
  isImageEntry person = true ∧
    ∃ r : VerifyOutcome, oracle person = .ok r ∧ r.verified = true ∧
      r.distance < FACE_DISTANCE_THRESHOLD

/-- Exceptions distinguished by the `/api/verify` handler: Python
`FileNotFoundError` is caught separately (`main.py` line 72) from any
other `Exception` (line 75). -/
inductive PyErr
  | fileNotFound
  | other
deriving DecidableEq

/-- A response of the `/api/verify` handler: a `FaceVerifyResponse` body
(HTTP 200) or an `HTTPException` with a status code and detail message.
The `response_model=FaceVerifyResponse` declaration restricts a 200 body
to exactly the fields `verified`, `matched_with`, `score`, dropping any
extra dict key such as the `"error"` marker of `main.py` line 77. -/
inductive Response
  | ok (r : VerificationResult)
  | httpError (status : Nat) (detail : String)
deriving DecidableEq

/-- The request environment of one `/api/verify` call: whether the
registered-faces directory exists, its raw `os.listdir` listing, the
result of `capture_face` (a path, or a raised exception), the verdict of
`basic_spoof_check` on the capture, the embedding oracle, and whether the
`log_verification` call succeeds. -/
structure Env where
  galleryDirExists : Bool
  galleryListing : List Str
  capture : Except PyErr Unit
  spoofLive : Bool
  oracle : Oracle
  logOk : Bool

/-- One run of a verification handler: its response, the gallery entries
for which the embedding oracle was invoked, and the number of audit
records appended.  Modelled from the spec for the append count:
`utils.log_verification` is not under `src/`; per the Audit Log contract
(spec section 4.5) each successful `record(...)` call appends exactly one
record, and a failing call appends none. -/
structure HandlerRun where
  response : Response
  oracleCalls : List Str
  auditAppends : Nat
deriving DecidableEq

/-- The `/api/verify` handler (`main.py` lines 46-77).  Order of events:
gallery precondition (400 when the directory is missing or its listing is
empty), `capture_face`, `basic_spoof_check` (short-circuit response with
`score = 0.0`), `verify_face`, `log_verification`, response.  A
`FileNotFoundError` anywhere in the body yields HTTP 500; any other
exception (including a `log_verification` failure) falls into the generic
handler, which returns an HTTP 200 body
`{verified: False, matched_with: None, score: 0.0}`. -/
def verify_endpoint (env : Env) : HandlerRun :=
  if !env.galleryDirExists || env.galleryListing = [] then
    ⟨.httpError 400 "No registered faces found. Please add faces to images/registered/ directory.",
      [], 0⟩
  else
    match env.capture with
    | .error .fileNotFound =>
        ⟨.httpError 500 "Required files or directories not found", [], 0⟩
    | .error .other => ⟨.ok ⟨false, none, some 0⟩, [], 0⟩
    | .ok _ =>
      if !env.spoofLive then ⟨.ok ⟨false, none, some 0⟩, [], 0⟩
      else
        let (result, calls) := verify_face_run env.oracle env.galleryListing
        if env.logOk then ⟨.ok result, calls, 1⟩
        else ⟨.ok ⟨false, none, some 0⟩, calls, 0⟩

/-- Round half to even to an integer. -/
def roundHalfEven (q : ℚ) : ℤ :=
  if q - ⌊q⌋ < 1/2 then ⌊q⌋
  else if 1/2 < q - ⌊q⌋ then ⌊q⌋ + 1
  else if 2 ∣ ⌊q⌋ then ⌊q⌋ else ⌊q⌋ + 1

/-- Python `round(x, 1)` on a float value: round half to even at one
decimal place (modelled exactly on dyadic inputs). -/
def pyRound1 (q : ℚ) : ℚ := (roundHalfEven (q * 10) : ℚ) / 10

/-- The confidence computed by `/verify-face` on a match (`main.py` lines
174 and 182): `round(max(0.0, min(100.0, (1 - distance) * 100)), 1)`. -/
def confidenceOf (d : ℚ) : ℚ := pyRound1 (max 0 (min 100 ((1 - d) * 100)))

/-- A response of the `/verify-face` handler: a `ClientVerifyResponse`
body `{match, confidence}` (HTTP 200) or an `HTTPException`. -/
inductive ClientResponse
  | ok (found : Bool) (confidence : ℚ)
  | httpError (status : Nat) (detail : String)
deriving DecidableEq

/-- The request environment of one `/verify-face` call: whether the
uploaded file's content type starts with `image/`, the gallery directory
state, the spoof verdict on the saved upload, the oracle, and whether
`log_verification` succeeds. -/
structure UploadEnv where
  contentTypeImage : Bool
  galleryDirExists : Bool
  galleryListing : List Str
  spoofLive : Bool
  oracle : Oracle
  logOk : Bool

/-- One run of the `/verify-face` handler, with oracle-call and
audit-append instrumentation as in `HandlerRun`. -/
structure ClientRun where
  response : ClientResponse
  oracleCalls : List Str
  auditAppends : Nat
deriving DecidableEq

/-- The `/verify-face` handler (`main.py` lines 140-201).  Order of
events: content-type check (400), gallery precondition (400), save
upload, `basic_spoof_check` (short-circuit `{match: False, confidence:
0.0}`), `verify_face`; on a verified result the confidence is computed
and `log_verification` is called before returning `{match: True,
confidence}`; on an unverified result `log_verification(None, False,
None)` is called before `{match: False, confidence: 0.0}`.  Any
exception in the body — including a `log_verification` failure, or the
`TypeError` from `(1 - None) * 100` were a verified result ever to carry
`score = None` — is caught by the generic handler and yields HTTP 500. -/
def verify_face_from_photo (env : UploadEnv) : ClientRun :=
  if !env.contentTypeImage then
    ⟨.httpError 400 "File must be an image", [], 0⟩
  else if !env.galleryDirExists || env.galleryListing = [] then
    ⟨.httpError 400 "No registered employees found in system", [], 0⟩
  else if !env.spoofLive then ⟨.ok false 0, [], 0⟩
  else
    let (result, calls) := verify_face_run env.oracle env.galleryListing
    if result.verified then
      match result.score with
      | some d =>
        if env.logOk then ⟨.ok true (confidenceOf d), calls, 1⟩
        else ⟨.httpError 500 "Face verification failed", calls, 0⟩
      | none => ⟨.httpError 500 "Face verification failed", calls, 0⟩
    else
      if env.logOk then ⟨.ok false 0, calls, 1⟩
      else ⟨.httpError 500 "Face verification failed", calls, 0⟩

/-- Character-wise substitution: Python `s.replace(a, b)` for
single-character `a` and `b`. -/
def replaceChar (a b : Char) (s : Str) : Str :=
  s.map (fun c => if c = a then b else c)

/-- Python `s.strip()`: drop leading and trailing whitespace. -/
def trimChars (s : Str) : Str :=
  ((s.dropWhile Char.isWhitespace).reverse.dropWhile Char.isWhitespace).reverse

/-- The enrollment name normalization of `main.py` line 87:
`name.strip().replace(" ", "_").replace("/", "_").replace("\\", "_")`. -/
def clean_name (name : Str) : Str :=
  replaceChar '\\' '_' (replaceChar '/' '_' (replaceChar ' ' '_' (trimChars name)))

/-- The request environment of one `/api/register` call: the submitted
name, the filenames already present in `images/registered/`, whether
`capture_face` succeeds, and the spoof verdict on the capture. -/
structure RegisterEnv where
  name : Str
  stored : List Str
  captureOk : Bool
  spoofLive : Bool

/-- A response of the `/api/register` handler. -/
inductive RegisterResponse
  | success (filename : Str)
  | clientError (detail : String)
  | serverError (detail : String)
deriving DecidableEq

/-- The `/api/register` handler (`main.py` lines 79-116): empty-name check
(400), name normalization, duplicate check against
`images/registered/{clean_name}.jpg` (400), capture (a failure falls to
the generic 500 handler), spoof gate (400), then the capture is copied to
`{clean_name}.jpg`. -/
def register_face (env : RegisterEnv) : RegisterResponse :=
  if trimChars env.name = [] then .clientError "Name cannot be empty"
  else if (clean_name env.name ++ strOf ".jpg") ∈ env.stored then
    .clientError "Face already registered"
  else if !env.captureOk then
    .serverError "Registration failed due to internal error"
  else if !env.spoofLive then
    .clientError "Face capture failed spoof detection. Please try again with better lighting."
  else .success (clean_name env.name ++ strOf ".jpg")

/-- Python `os.path.splitext(s)[0]`: the part before the last dot, except
that a basename whose characters before its last dot are all dots is not
split. -/
def splitextRoot (s : Str) : Str :=
  let pre := (s.reverse.dropWhile (fun c => c ≠ '.')).drop 1
  if pre.any (fun c => c ≠ '.') then pre.reverse else s

/-- The `/api/registered` handler (`main.py` lines 118-138): for a missing
directory the face list is empty; otherwise every allow-listed image file
contributes the pair (display name, filename), where the display name is
the filename's stem with underscores mapped back to spaces. -/
def list_registered_faces (galleryDirExists : Bool) (listing : List Str) :
    List (Str × Str) :=
  if galleryDirExists then
    (listing.filter isImageEntry).map
      (fun f => (replaceChar '_' ' ' (splitextRoot f), f))
  else []

end FaceAI

namespace FaceAI

/-- The spec's `VerificationResult` invariant (section 3): `matchedIdentity`
and `distance` are present iff `verified` is true. -/
def resultInv (r : VerificationResult) : Prop :=
  r.matched_with.isSome = r.verified ∧ r.score.isSome = r.verified

/-- The `matchedIdentity` half of the invariant, lifted to handler
responses: every HTTP 200 body carries `matched_with` present iff
`verified`. -/
def respMatchedInv : Response → Prop
  | .ok r => r.matched_with.isSome = r.verified
  | .httpError _ _ => True

/-- No two consecutive spaces. -/
def noDoubleSpace : Str → Bool
  | [] => true
  | [_] => true
  | a :: b :: rest => !(a = ' ' && b = ' ') && noDoubleSpace (b :: rest)

/-- A trimmed name that consists of words separated by single spaces:
nonempty, every whitespace character is a plain space, and no two spaces
are adjacent. -/
def wordsSingleSpaced (t : Str) : Prop :=
  t ≠ [] ∧ (∀ c ∈ t, c.isWhitespace → c = ' ') ∧ noDoubleSpace t = true

instance (t : Str) : Decidable (wordsSingleSpaced t) := by
  unfold wordsSingleSpaced
  infer_instance

/-! ## Helper lemmas about the gallery scan -/

/-- A scan over a listing with no image entries makes no oracle call and
reports no match. -/
theorem verify_face_run_no_images (oracle : Oracle) (L : List Str)
    (h : ∀ p ∈ L, isImageEntry p = false) :
    verify_face_run oracle L = (⟨false, none, none⟩, []) := by
  induction L with
  | nil => rfl
  | cons p rest ih =>
    have hp : isImageEntry p = false := h p (by simp)
    simp only [verify_face_run, hp, Bool.false_eq_true, if_false]
    exact ih fun q hq => h q (List.mem_cons_of_mem _ hq)

/-- Every result of the gallery scan satisfies the spec's
`VerificationResult` invariant. -/
theorem verify_face_resultInv (oracle : Oracle) (L : List Str) :
    resultInv (verify_face oracle L) := by
  induction L with
  | nil => simp [verify_face, verify_face_run, resultInv]
  | cons p rest ih =>
    simp only [verify_face, verify_face_run] at ih ⊢
    by_cases hp : isImageEntry p
    · simp only [hp, if_true]
      cases ho : oracle p with
      | ok r =>
        by_cases hg : (r.verified && decide (r.distance < FACE_DISTANCE_THRESHOLD)) = true
        · simp only [hg, if_true]
          have hv : r.verified = true := by
            rw [Bool.and_eq_true] at hg
            exact hg.1
          simp [resultInv, hv]
        · simp only [Bool.not_eq_true] at hg
          simpa [hg] using ih
      | error e => simpa using ih
    · simpa [hp] using ih

/-- An unverified scan result is exactly
`{verified: False, matched_with: None, score: None}`. -/
theorem verify_face_no_match (oracle : Oracle) (L : List Str)
    (h : (verify_face oracle L).verified = false) :
    verify_face oracle L = ⟨false, none, none⟩ := by
  obtain ⟨h1, h2⟩ := verify_face_resultInv oracle L
  rw [h] at h1 h2
  rcases hr : verify_face oracle L with ⟨v, m, s⟩
  rw [hr] at h h1 h2
  cases m <;> cases s <;> simp_all

/-- A verified scan result carries a score. -/
theorem verify_face_verified_score (oracle : Oracle) (L : List Str)
    (h : (verify_face oracle L).verified = true) :
    ∃ d : ℚ, (verify_face oracle L).score = some d := by
  obtain ⟨-, h2⟩ := verify_face_resultInv oracle L
  rw [h] at h2
  exact Option.isSome_iff_exists.mp h2

/-! ## Claim C1 -/

/-- C1 (amended): a verification attempt on a gallery whose directory is
missing or whose directory listing is empty fails with the
`GalleryUnavailable` condition as an HTTP 400 client error, never an
HTTP 200 `{verified: false}` body; however a gallery whose directory
contains only non-image entries (hence holds no identities) passes the
gate, and a full scan then returns the plain
`{verified: false, matched_with: null, score: null}` body. -/
theorem c1_theorem :
    (∀ env : Env, env.galleryDirExists = false ∨ env.galleryListing = [] →
      (verify_endpoint env).response =
        .httpError 400
          "No registered faces found. Please add faces to images/registered/ directory.") ∧
    (∀ env : Env, env.galleryDirExists = true → env.galleryListing ≠ [] →
      env.capture = .ok () → env.spoofLive = true → env.logOk = true →
      (∀ p ∈ env.galleryListing, isImageEntry p = false) →
      (verify_endpoint env).response = .ok ⟨false, none, none⟩) := by
  constructor
  · rintro ⟨dir, listing, capture, spoof, oracle, logOk⟩ (h | h)
    · subst h; rfl
    · subst h; simp [verify_endpoint]
  · rintro ⟨dir, listing, capture, spoof, oracle, logOk⟩ hdir hne hcap hspoof hlog hni
    subst hdir hspoof hlog
    subst hcap
    simp only [verify_endpoint, Bool.not_true, Bool.false_or, decide_eq_true_eq]
    rw [if_neg hne]
    have hrun := verify_face_run_no_images oracle listing hni
    simp [hrun]

/-- C1 witness: the amended theorem applied to a gallery with a missing
directory, to one with an empty listing, and to one whose only entry is
`.gitkeep`. -/
theorem c1_witness :
    (verify_endpoint ⟨false, [strOf "a.jpg"], .ok (), true, fun _ => .error (), true⟩).response =
      .httpError 400
        "No registered faces found. Please add faces to images/registered/ directory." ∧
    (verify_endpoint ⟨true, [], .ok (), true, fun _ => .error (), true⟩).response =
      .httpError 400
        "No registered faces found. Please add faces to images/registered/ directory." ∧
    (verify_endpoint ⟨true, [strOf ".gitkeep"], .ok (), true, fun _ => .error (), true⟩).response =
      .ok ⟨false, none, none⟩ :=
  ⟨c1_theorem.1 _ (Or.inl rfl), c1_theorem.1 _ (Or.inr rfl),
    c1_theorem.2 _ rfl (by decide) rfl rfl rfl (by decide)⟩

/-- C1 counterexample: a gallery directory whose only entry is `.gitkeep`
holds no identity, so the gallery is empty in the spec's sense, yet the
attempt does not fail with HTTP 400: it runs the scan and returns an
HTTP 200 `{verified: false, matched_with: null, score: null}` body
silently. -/
theorem c1_counterexample :
    isImageEntry (strOf ".gitkeep") = false ∧
    (verify_endpoint ⟨true, [strOf ".gitkeep"], .ok (), true, fun _ => .error (), true⟩).response =
      .ok ⟨false, none, none⟩ ∧
    (verify_endpoint ⟨true, [strOf ".gitkeep"], .ok (), true, fun _ => .error (), true⟩).response ≠
      .httpError 400
        "No registered faces found. Please add faces to images/registered/ directory." := by
  refine ⟨by decide, by decide, ?_⟩
  decide

/-! ## Claim C2 -/

/-- C2: the gallery scan returns immediately on the first entry, in
enumeration order, for which the oracle reports `verified = true` and
`distance < FACE_DISTANCE_THRESHOLD`: when no entry of the preceding
segment is such a hit and `person` is one, the scan yields
`{verified: true, matched_with: person, score: that distance}` and the
oracle has been invoked exactly on the image entries scanned up to and
including `person` — the winner is fixed by scan order, not by minimal
distance. -/
theorem c2_theorem (oracle : Oracle) (l1 l2 : List Str) (person : Str) (r : VerifyOutcome)
    (hmiss : ∀ q ∈ l1, ¬ hitEntry oracle q)
    (himg : isImageEntry person = true)
    (hok : oracle person = .ok r)
    (hver : r.verified = true)
    (hdist : r.distance < FACE_DISTANCE_THRESHOLD) :
    verify_face_run oracle (l1 ++ person :: l2) =
      (⟨true, some person, some r.distance⟩, l1.filter isImageEntry ++ [person]) := by
  induction l1 with
  | nil =>
    simp [verify_face_run, himg, hok, hver, hdist]
  | cons q l1 ih =>
    have hq : ¬ hitEntry oracle q := hmiss q (by simp)
    have ih' := ih fun p hp => hmiss p (List.mem_cons_of_mem _ hp)
    by_cases hiq : isImageEntry q = true
    · cases hoq : oracle q with
      | ok out =>
        have hguard : (out.verified && decide (out.distance < FACE_DISTANCE_THRESHOLD)) = false := by
          rcases Bool.eq_false_or_eq_true
              (out.verified && decide (out.distance < FACE_DISTANCE_THRESHOLD)) with h | h
          · rw [Bool.and_eq_true, decide_eq_true_eq] at h
            exact absurd ⟨hiq, out, hoq, h.1, h.2⟩ hq
          · exact h
        simp [verify_face_run, hiq, hoq, hguard, ih', List.filter_cons]
      | error e =>
        simp [verify_face_run, hiq, hoq, ih', List.filter_cons]
    · simp only [Bool.not_eq_true] at hiq
      simp [verify_face_run, hiq, ih', List.filter_cons]

/-- C2 witness: the theorem applied to the gallery listing
`[".gitkeep", "a.jpg", "z.jpg"]` with an oracle reporting a hit at
distance 1/4 everywhere: the scan stops at `a.jpg`, the first image
entry. -/
theorem c2_witness :
    isImageEntry (strOf "a.jpg") = true ∧
    ((1 : ℚ)/4 < FACE_DISTANCE_THRESHOLD) ∧
    verify_face_run (fun _ => .ok ⟨true, 1/4⟩) (strOf ".gitkeep" :: strOf "a.jpg" :: [strOf "z.jpg"]) =
      (⟨true, some (strOf "a.jpg"), some (1/4)⟩, [strOf "a.jpg"]) := by
  refine ⟨by decide, by norm_num [FACE_DISTANCE_THRESHOLD], ?_⟩
  have h := c2_theorem (fun _ => .ok ⟨true, 1/4⟩) [strOf ".gitkeep"] [strOf "z.jpg"]
    (strOf "a.jpg") ⟨true, 1/4⟩
    (by
      intro q hq
      have hq' : q = strOf ".gitkeep" := by simpa using hq
      subst hq'
      rintro ⟨himg, -⟩
      exact absurd himg (by decide))
    (by decide) rfl rfl (by norm_num [FACE_DISTANCE_THRESHOLD])
  simpa using h

/-! ## Claim C3 -/

/-- C3: a per-identity oracle exception is absorbed: the erroring entry is
skipped and the scan continues over the remaining identities, never
aborting the whole verification — the result over any listing containing
the erroring entry equals the result over the listing with that entry
removed, and at the head of the scan the erroring entry is attempted
(hence logged) and then the scan of the tail proceeds unchanged. -/
theorem c3_theorem (oracle : Oracle) (l1 l2 : List Str) (person : Str)
    (himg : isImageEntry person = true)
    (herr : oracle person = .error ()) :
    verify_face oracle (l1 ++ person :: l2) = verify_face oracle (l1 ++ l2) ∧
    verify_face_run oracle (person :: l2) =
      ((verify_face_run oracle l2).1, person :: (verify_face_run oracle l2).2) := by
  constructor
  · induction l1 with
    | nil => simp [verify_face, verify_face_run, himg, herr]
    | cons q l1 ih =>
      by_cases hiq : isImageEntry q = true
      · cases hoq : oracle q with
        | ok out =>
          by_cases hguard : (out.verified && decide (out.distance < FACE_DISTANCE_THRESHOLD)) = true
          · simp [verify_face, verify_face_run, hiq, hoq, hguard]
          · simp only [Bool.not_eq_true] at hguard
            simpa [verify_face, verify_face_run, hiq, hoq, hguard] using ih
        | error e =>
          simpa [verify_face, verify_face_run, hiq, hoq] using ih
      · simp only [Bool.not_eq_true] at hiq
        simpa [verify_face, verify_face_run, hiq] using ih
  · simp [verify_face_run, himg, herr]

/-- C3 witness: the theorem applied to an oracle raising on `bad.jpg`: the
scan over `["good.jpg", "bad.jpg", "z.jpg"]` coincides with the scan over
`["good.jpg", "z.jpg"]`, and scanning from `bad.jpg` attempts it and
continues. -/
theorem c3_witness :
    isImageEntry (strOf "bad.jpg") = true ∧
    (let oracle : Oracle := fun p => if p = strOf "bad.jpg" then .error () else .ok ⟨false, 0⟩
     verify_face oracle ([strOf "good.jpg"] ++ strOf "bad.jpg" :: [strOf "z.jpg"]) =
       verify_face oracle ([strOf "good.jpg"] ++ [strOf "z.jpg"]) ∧
     verify_face_run oracle (strOf "bad.jpg" :: [strOf "z.jpg"]) =
       ((verify_face_run oracle [strOf "z.jpg"]).1,
         strOf "bad.jpg" :: (verify_face_run oracle [strOf "z.jpg"]).2)) :=
  ⟨by decide,
    c3_theorem (fun p => if p = strOf "bad.jpg" then .error () else .ok ⟨false, 0⟩)
      [strOf "good.jpg"] [strOf "z.jpg"] (strOf "bad.jpg") (by decide) (by rfl)⟩

/-! ## Claim C4 -/

/-- C4 (amended): every `VerificationResult` produced by the gallery scan
`verify_face` satisfies the invariant that `matched_with` and `score` are
present iff `verified` is true, and every HTTP 200 body of the
`/api/verify` handler keeps the `matched_with` half of the invariant; but
the handler's spoof-rejection and internal-error bodies carry
`score = 0.0` together with `verified = false`, so the `score` half of
the invariant does not hold for every result the system produces. -/
theorem c4_theorem :
    (∀ (oracle : Oracle) (L : List Str), resultInv (verify_face oracle L)) ∧
    (∀ env : Env, respMatchedInv (verify_endpoint env).response) := by
  refine ⟨verify_face_resultInv, ?_⟩
  rintro ⟨dir, listing, capture, spoof, oracle, logOk⟩
  by_cases hg : (!dir || listing = []) = true
  · simp only [verify_endpoint, hg, if_true]
    trivial
  · simp only [verify_endpoint, hg, Bool.false_eq_true, if_false]
    rcases capture with ⟨⟨⟩⟩ | ⟨⟩
    · trivial
    · simp [respMatchedInv]
    · by_cases hs : spoof = true
      · simp only [hs, Bool.not_true, Bool.false_eq_true, if_false]
        by_cases hl : logOk = true
        · simp only [hl, if_true]
          exact (verify_face_resultInv oracle listing).1
        · simp only [hl, Bool.false_eq_true, if_false]
          simp [respMatchedInv]
      · simp only [Bool.not_eq_true] at hs
        simp [hs, respMatchedInv]

/-- C4 counterexample: a capture that fails the spoof gate yields the
HTTP 200 body `{verified: false, matched_with: null, score: 0.0}`, whose
`score` is present while `verified` is false — the claimed invariant
fails on a result the system produces. -/
theorem c4_counterexample :
    (verify_endpoint ⟨true, [strOf "a.jpg"], .ok (), false, fun _ => .error (), true⟩).response =
      .ok ⟨false, none, some 0⟩ ∧
    ¬ resultInv ⟨false, none, some 0⟩ := by
  constructor
  · decide
  · simp [resultInv]

/-! ## Claim C5 -/

/-- C5 (amended): on `/verify-face`, a match at distance `d` returns
`{match: true, confidence: round(clamp(0, 100, (1 - d) * 100), 1)}` — the
clamped value rounded to one decimal place, so distance 0.0 maps to
confidence 100.0, distance 1.0 to 0.0 and any distance above 1.0 is
clamped to 0.0 — and no match returns `{match: false, confidence: 0.0}`. -/
theorem c5_theorem :
    (∀ (env : UploadEnv) (p : Str) (d : ℚ),
      env.contentTypeImage = true → env.galleryDirExists = true → env.galleryListing ≠ [] →
      env.spoofLive = true → env.logOk = true →
      verify_face env.oracle env.galleryListing = ⟨true, some p, some d⟩ →
      (verify_face_from_photo env).response = .ok true (confidenceOf d)) ∧
    (∀ env : UploadEnv,
      env.contentTypeImage = true → env.galleryDirExists = true → env.galleryListing ≠ [] →
      env.spoofLive = true → env.logOk = true →
      (verify_face env.oracle env.galleryListing).verified = false →
      (verify_face_from_photo env).response = .ok false 0) ∧
    confidenceOf 0 = 100 ∧ confidenceOf 1 = 0 ∧
    (∀ d : ℚ, 1 < d → confidenceOf d = 0) := by
  refine ⟨?_, ?_, ?_, ?_, ?_⟩
  · rintro ⟨ct, dir, listing, spoof, oracle, logOk⟩ p d hct hdir hne hspoof hlog hres
    subst hct; subst hdir; subst hspoof; subst hlog
    rcases hrun : verify_face_run oracle listing with ⟨res, calls⟩
    have hr : res = ⟨true, some p, some d⟩ := by
      rw [verify_face, hrun] at hres
      exact hres
    subst hr
    simp [verify_face_from_photo, hrun, hne]
  · rintro ⟨ct, dir, listing, spoof, oracle, logOk⟩ hct hdir hne hspoof hlog hres
    subst hct; subst hdir; subst hspoof; subst hlog
    rcases hrun : verify_face_run oracle listing with ⟨res, calls⟩
    have hr : res.verified = false := by
      rw [verify_face, hrun] at hres
      exact hres
    simp [verify_face_from_photo, hrun, hne, hr]
  · norm_num [confidenceOf, pyRound1, roundHalfEven]
  · norm_num [confidenceOf, pyRound1, roundHalfEven]
  · intro d hd
    have h2 : min 100 ((1 - d) * 100) = (1 - d) * 100 :=
      min_eq_right (by nlinarith)
    have h3 : max 0 (min 100 ((1 - d) * 100)) = 0 := by
      rw [h2]
      exact max_eq_left (by nlinarith)
    rw [confidenceOf, h3]
    norm_num [pyRound1, roundHalfEven]

/-- C5 witness: the amended theorem applied to a one-entry gallery matched
at distance 1/16 = 0.0625: the clamp gives 93.75 and the response carries
the rounded confidence 93.8; the no-match case and the boundary distances
0, 1 and 3/2 are also instantiated. -/
theorem c5_witness :
    (verify_face_from_photo
        ⟨true, true, [strOf "a.jpg"], true, (fun _ => .ok ⟨true, 1/16⟩), true⟩).response =
      .ok true (confidenceOf (1/16)) ∧
    confidenceOf (1/16) = 469/5 ∧
    (verify_face_from_photo
        ⟨true, true, [strOf "a.jpg"], true, (fun _ => .ok ⟨false, 1/16⟩), true⟩).response =
      .ok false 0 ∧
    confidenceOf (3/2) = 0 := by
  refine ⟨?_, ?_, ?_, ?_⟩
  · refine c5_theorem.1 ⟨true, true, [strOf "a.jpg"], true, (fun _ => .ok ⟨true, 1/16⟩), true⟩
      (strOf "a.jpg") (1/16) rfl rfl (by decide) rfl rfl ?_
    simp +decide [verify_face, verify_face_run, isImageEntry, SUPPORTED_IMAGE_FORMATS, strOf,
      lowerStr, FACE_DISTANCE_THRESHOLD]
    norm_num
  · norm_num [confidenceOf, pyRound1, roundHalfEven]
  · refine c5_theorem.2.1 ⟨true, true, [strOf "a.jpg"], true, (fun _ => .ok ⟨false, 1/16⟩), true⟩
      rfl rfl (by decide) rfl rfl ?_
    decide
  · exact c5_theorem.2.2.2.2 (3/2) (by norm_num)

/-- C5 counterexample: at distance 1/16 the code returns confidence 93.8
(the clamp rounded to one decimal place), not the claimed
`clamp(0, 100, (1 - distance) * 100) = 93.75`. -/
theorem c5_counterexample :
    (verify_face_from_photo
        ⟨true, true, [strOf "a.jpg"], true, (fun _ => .ok ⟨true, 1/16⟩), true⟩).response =
      .ok true (469/5) ∧
    (max 0 (min 100 ((1 - 1/16) * 100)) : ℚ) = 375/4 ∧
    ((469 : ℚ)/5 ≠ 375/4) := by
  refine ⟨?_, by norm_num, by norm_num⟩
  simp +decide [verify_face_from_photo, verify_face_run, isImageEntry, SUPPORTED_IMAGE_FORMATS,
    strOf, lowerStr, FACE_DISTANCE_THRESHOLD]
  norm_num [confidenceOf, pyRound1, roundHalfEven]

/-! ## Claim C6 -/

/-- C6 (amended): enrollment normalizes the supplied name by trimming it
and replacing every space, `/` and `\` character by an underscore (it
does not collapse whitespace runs and does not delete the separators),
and fails with the duplicate-identity client error exactly when a file
for that normalized name already exists; enrolling "Jane Doe" stores it
as `Jane_Doe` and a second "Jane Doe" enrollment collides, but "jane doe"
normalizes to the distinct name `jane_doe`, so it does not collide
case-insensitively. -/
theorem c6_theorem :
    (∀ env : RegisterEnv, trimChars env.name ≠ [] →
      (clean_name env.name ++ strOf ".jpg") ∈ env.stored →
      register_face env = .clientError "Face already registered") ∧
    register_face ⟨strOf "Jane Doe", [], true, true⟩ = .success (strOf "Jane_Doe.jpg") ∧
    register_face ⟨strOf "Jane Doe", [strOf "Jane_Doe.jpg"], true, true⟩ =
      .clientError "Face already registered" ∧
    clean_name (strOf "jane doe") = strOf "jane_doe" ∧
    strOf "jane_doe" ≠ strOf "Jane_Doe" := by
  refine ⟨?_, by decide, by decide, by decide, by decide⟩
  intro env hne hdup
  rw [register_face, if_neg hne, if_pos hdup]

/-- C6 witness: the duplicate-rejection part of the amended theorem
applied to a second enrollment of "Jane Doe". -/
theorem c6_witness :
    trimChars (strOf "Jane Doe") ≠ [] ∧
    (clean_name (strOf "Jane Doe") ++ strOf ".jpg") ∈ [strOf "Jane_Doe.jpg"] ∧
    register_face ⟨strOf "Jane Doe", [strOf "Jane_Doe.jpg"], true, true⟩ =
      .clientError "Face already registered" :=
  ⟨by decide, by decide,
    c6_theorem.1 ⟨strOf "Jane Doe", [strOf "Jane_Doe.jpg"], true, true⟩ (by decide) (by decide)⟩

/-- C6 counterexample: the normalization replaces rather than collapses or
strips — "Jane  Doe" becomes `Jane__Doe` and "a/b" becomes `a_b` — and
"jane doe" normalizes to `jane_doe`, which does not match the stored
`Jane_Doe.jpg`, so the enrollment claimed to fail with DuplicateIdentity
in fact succeeds. -/
theorem c6_counterexample :
    clean_name (strOf "jane doe") = strOf "jane_doe" ∧
    register_face ⟨strOf "jane doe", [strOf "Jane_Doe.jpg"], true, true⟩ =
      .success (strOf "jane_doe.jpg") ∧
    clean_name (strOf "Jane  Doe") = strOf "Jane__Doe" ∧
    clean_name (strOf "a/b") = strOf "a_b" := by
  refine ⟨by decide, by decide, by decide, by decide⟩

/-! ## Claim C7 -/

/-- C7: a capture that fails the spoof gate short-circuits both handlers:
`/api/verify` answers `{verified: false, matched_with: null, score: 0.0}`
and `/verify-face` answers `{match: false, confidence: 0.0}`, in both
cases with no embedding-oracle invocation at all (and no audit append). -/
theorem c7_theorem :
    (∀ env : Env, env.galleryDirExists = true → env.galleryListing ≠ [] →
      env.capture = .ok () → env.spoofLive = false →
      verify_endpoint env = ⟨.ok ⟨false, none, some 0⟩, [], 0⟩) ∧
    (∀ env : UploadEnv, env.contentTypeImage = true → env.galleryDirExists = true →
      env.galleryListing ≠ [] → env.spoofLive = false →
      verify_face_from_photo env = ⟨.ok false 0, [], 0⟩) := by
  constructor
  · rintro ⟨dir, listing, capture, spoof, oracle, logOk⟩ hdir hne hcap hspoof
    subst hdir; subst hcap; subst hspoof
    simp [verify_endpoint, hne]
  · rintro ⟨ct, dir, listing, spoof, oracle, logOk⟩ hct hdir hne hspoof
    subst hct; subst hdir; subst hspoof
    simp [verify_face_from_photo, hne]

/-- C7 witness: the theorem applied to spoof-failing requests whose oracle
would report a zero-distance match on every entry — the oracle is still
never invoked. -/
theorem c7_witness :
    verify_endpoint ⟨true, [strOf "a.jpg"], .ok (), false, (fun _ => .ok ⟨true, 0⟩), true⟩ =
      ⟨.ok ⟨false, none, some 0⟩, [], 0⟩ ∧
    verify_face_from_photo ⟨true, true, [strOf "a.jpg"], false, (fun _ => .ok ⟨true, 0⟩), true⟩ =
      ⟨.ok false 0, [], 0⟩ :=
  ⟨c7_theorem.1 ⟨true, [strOf "a.jpg"], .ok (), false, (fun _ => .ok ⟨true, 0⟩), true⟩
      rfl (by decide) rfl rfl,
    c7_theorem.2 ⟨true, true, [strOf "a.jpg"], false, (fun _ => .ok ⟨true, 0⟩), true⟩
      rfl rfl (by decide) rfl⟩

/-! ## Claim C8 -/

/-- C8 (amended): a request handler appends exactly one audit record for
every verification attempt whose gallery scan completes and whose audit
call succeeds — matched or not matched — but a spoof-rejected attempt
returns without appending any record, on both handlers. -/
theorem c8_theorem :
    (∀ env : Env, env.galleryDirExists = true → env.galleryListing ≠ [] →
      env.capture = .ok () → env.spoofLive = true → env.logOk = true →
      (verify_endpoint env).auditAppends = 1) ∧
    (∀ env : Env, env.galleryDirExists = true → env.galleryListing ≠ [] →
      env.capture = .ok () → env.spoofLive = false →
      (verify_endpoint env).auditAppends = 0) ∧
    (∀ env : UploadEnv, env.contentTypeImage = true → env.galleryDirExists = true →
      env.galleryListing ≠ [] → env.spoofLive = true → env.logOk = true →
      (verify_face_from_photo env).auditAppends = 1) ∧
    (∀ env : UploadEnv, env.contentTypeImage = true → env.galleryDirExists = true →
      env.galleryListing ≠ [] → env.spoofLive = false →
      (verify_face_from_photo env).auditAppends = 0) := by
  refine ⟨?_, ?_, ?_, ?_⟩
  · rintro ⟨dir, listing, capture, spoof, oracle, logOk⟩ hdir hne hcap hspoof hlog
    subst hdir; subst hcap; subst hspoof; subst hlog
    simp [verify_endpoint, hne]
  · rintro ⟨dir, listing, capture, spoof, oracle, logOk⟩ hdir hne hcap hspoof
    subst hdir; subst hcap; subst hspoof
    simp [verify_endpoint, hne]
  · rintro ⟨ct, dir, listing, spoof, oracle, logOk⟩ hct hdir hne hspoof hlog
    subst hct; subst hdir; subst hspoof; subst hlog
    rcases hrun : verify_face_run oracle listing with ⟨res, calls⟩
    rcases hv : res.verified with _ | _
    · simp [verify_face_from_photo, hrun, hne, hv]
    · obtain ⟨d, hd⟩ := verify_face_verified_score oracle listing
        (by rw [verify_face, hrun]; exact hv)
      rw [verify_face, hrun] at hd
      simp only at hd
      simp [verify_face_from_photo, hrun, hne, hv, hd]
  · rintro ⟨ct, dir, listing, spoof, oracle, logOk⟩ hct hdir hne hspoof
    subst hct; subst hdir; subst hspoof
    simp [verify_face_from_photo, hne]

/-- C8 witness: the amended theorem applied to concrete matched,
unmatched and spoof-rejected requests on both handlers. -/
theorem c8_witness :
    (verify_endpoint ⟨true, [strOf "a.jpg"], .ok (), true, (fun _ => .ok ⟨false, 0⟩), true⟩).auditAppends = 1 ∧
    (verify_endpoint ⟨true, [strOf "a.jpg"], .ok (), false, (fun _ => .ok ⟨false, 0⟩), true⟩).auditAppends = 0 ∧
    (verify_face_from_photo ⟨true, true, [strOf "a.jpg"], true, (fun _ => .ok ⟨false, 0⟩), true⟩).auditAppends = 1 ∧
    (verify_face_from_photo ⟨true, true, [strOf "a.jpg"], false, (fun _ => .ok ⟨false, 0⟩), true⟩).auditAppends = 0 :=
  ⟨c8_theorem.1 ⟨true, [strOf "a.jpg"], .ok (), true, (fun _ => .ok ⟨false, 0⟩), true⟩
      rfl (by decide) rfl rfl rfl,
    c8_theorem.2.1 ⟨true, [strOf "a.jpg"], .ok (), false, (fun _ => .ok ⟨false, 0⟩), true⟩
      rfl (by decide) rfl rfl,
    c8_theorem.2.2.1 ⟨true, true, [strOf "a.jpg"], true, (fun _ => .ok ⟨false, 0⟩), true⟩
      rfl rfl (by decide) rfl rfl,
    c8_theorem.2.2.2 ⟨true, true, [strOf "a.jpg"], false, (fun _ => .ok ⟨false, 0⟩), true⟩
      rfl rfl (by decide) rfl⟩

/-- C8 counterexample: a spoof-rejected verification attempt — an attempt
the handler processes to a rejection outcome — appends zero audit
records, not exactly one. -/
theorem c8_counterexample :
    (verify_endpoint ⟨true, [strOf "a.jpg"], .ok (), false, (fun _ => .ok ⟨true, 0⟩), true⟩).auditAppends = 0 ∧
    (verify_endpoint ⟨true, [strOf "a.jpg"], .ok (), false, (fun _ => .ok ⟨true, 0⟩), true⟩).auditAppends ≠ 1 := by
  exact ⟨by decide, by decide⟩

/-! ## Claim C9 -/

/-- C9 (amended): gallery-level failures propagate as a distinct HTTP 400
client error and `FileNotFoundError` input failures as a distinct HTTP
500, and a completed no-match scan answers
`{verified: false, matched_with: null, score: null}`, a different body
from the internal-error answer `{verified: false, matched_with: null,
score: 0.0}`; but any other internal error — including an audit-log
failure after a completed scan — is reported as that HTTP 200 body, so
the caller cannot in general distinguish "verification ran and found no
match" from "verification could not run" by typed outcomes alone. -/
theorem c9_theorem :
    (∀ env : Env, env.galleryDirExists = false ∨ env.galleryListing = [] →
      (verify_endpoint env).response =
        .httpError 400
          "No registered faces found. Please add faces to images/registered/ directory.") ∧
    (∀ env : Env, env.galleryDirExists = true → env.galleryListing ≠ [] →
      env.capture = .error .fileNotFound →
      (verify_endpoint env).response =
        .httpError 500 "Required files or directories not found") ∧
    (∀ env : Env, env.galleryDirExists = true → env.galleryListing ≠ [] →
      env.capture = .ok () → env.spoofLive = true → env.logOk = true →
      (verify_face env.oracle env.galleryListing).verified = false →
      (verify_endpoint env).response = .ok ⟨false, none, none⟩) ∧
    (∀ env : Env, env.galleryDirExists = true → env.galleryListing ≠ [] →
      env.capture = .error .other →
      (verify_endpoint env).response = .ok ⟨false, none, some 0⟩) ∧
    (Response.ok ⟨false, none, none⟩ ≠ Response.ok ⟨false, none, some 0⟩) := by
  refine ⟨?_, ?_, ?_, ?_, by decide⟩
  · rintro ⟨dir, listing, capture, spoof, oracle, logOk⟩ (h | h)
    · subst h; rfl
    · subst h; simp [verify_endpoint]
  · rintro ⟨dir, listing, capture, spoof, oracle, logOk⟩ hdir hne hcap
    subst hdir; subst hcap
    simp [verify_endpoint, hne]
  · rintro ⟨dir, listing, capture, spoof, oracle, logOk⟩ hdir hne hcap hspoof hlog hres
    subst hdir; subst hcap; subst hspoof; subst hlog
    have hnm := verify_face_no_match oracle listing hres
    rcases hrun : verify_face_run oracle listing with ⟨res, calls⟩
    rw [verify_face, hrun] at hnm
    simp [verify_endpoint, hrun, hne, hnm]
  · rintro ⟨dir, listing, capture, spoof, oracle, logOk⟩ hdir hne hcap
    subst hdir; subst hcap
    simp [verify_endpoint, hne]

/-- C9 witness: the amended theorem applied to an empty gallery, a
`FileNotFoundError` capture, a completed no-match scan, and a
generic-exception capture. -/
theorem c9_witness :
    (verify_endpoint ⟨true, [], .ok (), true, (fun _ => .ok ⟨false, 0⟩), true⟩).response =
      .httpError 400
        "No registered faces found. Please add faces to images/registered/ directory." ∧
    (verify_endpoint ⟨true, [strOf "a.jpg"], .error .fileNotFound, true,
        (fun _ => .ok ⟨false, 0⟩), true⟩).response =
      .httpError 500 "Required files or directories not found" ∧
    (verify_endpoint ⟨true, [strOf "a.jpg"], .ok (), true,
        (fun _ => .ok ⟨false, 0⟩), true⟩).response = .ok ⟨false, none, none⟩ ∧
    (verify_endpoint ⟨true, [strOf "a.jpg"], .error .other, true,
        (fun _ => .ok ⟨false, 0⟩), true⟩).response = .ok ⟨false, none, some 0⟩ :=
  ⟨c9_theorem.1 _ (Or.inr rfl),
    c9_theorem.2.1 ⟨true, [strOf "a.jpg"], .error .fileNotFound, true,
      (fun _ => .ok ⟨false, 0⟩), true⟩ rfl (by decide) rfl,
    c9_theorem.2.2.1 ⟨true, [strOf "a.jpg"], .ok (), true,
      (fun _ => .ok ⟨false, 0⟩), true⟩ rfl (by decide) rfl rfl rfl (by decide),
    c9_theorem.2.2.2.1 ⟨true, [strOf "a.jpg"], .error .other, true,
      (fun _ => .ok ⟨false, 0⟩), true⟩ rfl (by decide) rfl⟩

/-- C9 counterexample: two executions — one whose scan completes and finds
no match but whose audit call then fails, one whose capture raises a
generic error so verification never runs (no oracle call) — produce the
identical HTTP 200 body `{verified: false, matched_with: null,
score: 0.0}`, so the caller cannot distinguish "ran and found no match"
from "could not run". -/
theorem c9_counterexample :
    (verify_endpoint ⟨true, [strOf "a.jpg"], .ok (), true,
        (fun _ => .ok ⟨false, 0⟩), false⟩).response =
      (verify_endpoint ⟨true, [strOf "a.jpg"], .error .other, true,
        (fun _ => .ok ⟨false, 0⟩), true⟩).response ∧
    (verify_face (fun _ => .ok ⟨false, 0⟩) [strOf "a.jpg"]).verified = false ∧
    (verify_endpoint ⟨true, [strOf "a.jpg"], .ok (), true,
        (fun _ => .ok ⟨false, 0⟩), false⟩).oracleCalls = [strOf "a.jpg"] ∧
    (verify_endpoint ⟨true, [strOf "a.jpg"], .error .other, true,
        (fun _ => .ok ⟨false, 0⟩), true⟩).oracleCalls = [] := by
  exact ⟨by decide, by decide, by decide, by decide⟩

/-! ## Helper lemmas for the enrollment/listing round trip -/

/-- Substituting a character that does not occur is the identity. -/
theorem replaceChar_of_not_mem (a b : Char) (s : Str) (h : a ∉ s) :
    replaceChar a b s = s := by
  induction s with
  | nil => rfl
  | cons c cs ih =>
    have hc : ¬ c = a := fun hc => h (hc ▸ List.mem_cons_self c cs)
    simp only [replaceChar, List.map_cons, if_neg hc]
    rw [show List.map (fun c => if c = a then b else c) cs = replaceChar a b cs from rfl,
      ih fun ha => h (List.mem_cons_of_mem _ ha)]

/-- A character distinct from the substitute and absent from the input is
absent from the substitution's output. -/
theorem not_mem_replaceChar (a b x : Char) (s : Str) (hx : x ∉ s) (hxb : x ≠ b) :
    x ∉ replaceChar a b s := by
  intro hmem
  obtain ⟨c, hc, hfc⟩ := List.mem_map.mp hmem
  by_cases hca : c = a
  · rw [if_pos hca] at hfc
    exact hxb hfc.symm
  · rw [if_neg hca] at hfc
    exact hx (hfc ▸ hc)

/-- Turning spaces into underscores and back is the identity on a string
without underscores. -/
theorem replaceChar_roundtrip (t : Str) (h : '_' ∉ t) :
    replaceChar '_' ' ' (replaceChar ' ' '_' t) = t := by
  unfold replaceChar
  rw [List.map_map]
  conv_rhs => rw [← List.map_id t]
  apply List.map_congr_left
  intro c hc
  by_cases hsp : c = ' '
  · subst hsp; simp
  · have hcu : ¬ c = '_' := fun h' => h (h' ▸ hc)
    simp [hsp, hcu]

/-- Under the hypotheses of the round-trip claim the two path-separator
substitutions are the identity, so normalization is exactly
space-to-underscore substitution of the trimmed name. -/
theorem clean_name_eq (name : Str)
    (hS : '/' ∉ trimChars name) (hB : '\\' ∉ trimChars name) :
    clean_name name = replaceChar ' ' '_' (trimChars name) := by
  have h1 : '/' ∉ replaceChar ' ' '_' (trimChars name) :=
    not_mem_replaceChar _ _ _ _ hS (by decide)
  have h2 : '\\' ∉ replaceChar ' ' '_' (trimChars name) :=
    not_mem_replaceChar _ _ _ _ hB (by decide)
  rw [clean_name, replaceChar_of_not_mem _ _ _ h1, replaceChar_of_not_mem _ _ _ h2]

/-- A list is a Boolean prefix of itself followed by anything. -/
theorem isPrefixOf_append (l t : List Char) : l.isPrefixOf (l ++ t) = true := by
  induction l with
  | nil => simp [List.isPrefixOf]
  | cons c cs ih => simp [List.isPrefixOf, ih]

/-- Appending the `.jpg` extension always produces an allow-listed image
entry. -/
theorem isImageEntry_append_jpg (s : Str) : isImageEntry (s ++ strOf ".jpg") = true := by
  have hlow : List.map Char.toLower (strOf ".jpg") = strOf ".jpg" := by decide
  simp only [isImageEntry, SUPPORTED_IMAGE_FORMATS, List.any_cons, List.any_nil,
    Bool.or_eq_true]
  left
  show (strOf ".jpg").isSuffixOf (lowerStr (s ++ strOf ".jpg")) = true
  rw [lowerStr, List.map_append, hlow, List.isSuffixOf, List.reverse_append]
  exact isPrefixOf_append _ _

/-- `os.path.splitext` recovers the stem after appending `.jpg`, provided
the stem has at least one non-dot character. -/
theorem splitextRoot_append_jpg (s : Str) (h : ∃ c ∈ s, c ≠ '.') :
    splitextRoot (s ++ strOf ".jpg") = s := by
  have hrev : (s ++ strOf ".jpg").reverse = 'g' :: 'p' :: 'j' :: '.' :: s.reverse := by
    rw [List.reverse_append]
    rfl
  have hdrop : ((s ++ strOf ".jpg").reverse.dropWhile (fun c => c ≠ '.')).drop 1
      = s.reverse := by
    rw [hrev]
    simp +decide [List.dropWhile_cons]
  have hany : (s.reverse.any (fun c => c ≠ '.')) = true := by
    rw [List.any_reverse]
    obtain ⟨c, hc, hne⟩ := h
    exact List.any_eq_true.mpr ⟨c, hc, by simpa using hne⟩
  rw [splitextRoot]
  simp only [hdrop, hany, if_true, List.reverse_reverse]

/-! ## Claim C10 -/

/-- C10 (amended): for every name whose trimmed form consists of words
separated by single spaces, contains no underscore or path-separator
characters, and has at least one character other than a dot, registering
the name and then listing the registered faces yields an entry whose
filename is the normalized name with a `.jpg` extension and whose
displayed name is the trimmed original (underscores mapped back to
spaces). -/
theorem c10_theorem (name : Str) (stored : List Str)
    (hW : wordsSingleSpaced (trimChars name))
    (hU : '_' ∉ trimChars name)
    (hS : '/' ∉ trimChars name)
    (hB : '\\' ∉ trimChars name)
    (hdot : ∃ c ∈ trimChars name, c ≠ '.')
    (hdup : (clean_name name ++ strOf ".jpg") ∉ stored) :
    register_face ⟨name, stored, true, true⟩ = .success (clean_name name ++ strOf ".jpg") ∧
    (trimChars name, clean_name name ++ strOf ".jpg") ∈
      list_registered_faces true (stored ++ [clean_name name ++ strOf ".jpg"]) := by
  have hne : trimChars name ≠ [] := hW.1
  constructor
  · rw [register_face, if_neg hne, if_neg hdup]
    rfl
  · have himg : isImageEntry (clean_name name ++ strOf ".jpg") = true :=
      isImageEntry_append_jpg _
    have hstem : splitextRoot (clean_name name ++ strOf ".jpg") = clean_name name := by
      apply splitextRoot_append_jpg
      obtain ⟨c, hc, hcdot⟩ := hdot
      rw [clean_name_eq name hS hB]
      refine ⟨if c = ' ' then '_' else c, List.mem_map.mpr ⟨c, hc, rfl⟩, ?_⟩
      by_cases hsp : c = ' '
      · simp [hsp]
      · simpa [hsp] using hcdot
    have hdisp : replaceChar '_' ' ' (clean_name name) = trimChars name := by
      rw [clean_name_eq name hS hB]
      exact replaceChar_roundtrip _ hU
    rw [list_registered_faces, if_pos rfl]
    apply List.mem_map.mpr
    refine ⟨clean_name name ++ strOf ".jpg", ?_, ?_⟩
    · exact List.mem_filter.mpr ⟨List.mem_append_right _ (List.mem_singleton.mpr rfl), himg⟩
    · rw [hstem, hdisp]

/-- C10 witness: the amended theorem applied to the name "Jane Doe" on an
empty store: it is stored as `Jane_Doe.jpg` and listed with display name
"Jane Doe". -/
theorem c10_witness :
    wordsSingleSpaced (trimChars (strOf "Jane Doe")) ∧
    register_face ⟨strOf "Jane Doe", [], true, true⟩ =
      .success (clean_name (strOf "Jane Doe") ++ strOf ".jpg") ∧
    (trimChars (strOf "Jane Doe"), clean_name (strOf "Jane Doe") ++ strOf ".jpg") ∈
      list_registered_faces true ([] ++ [clean_name (strOf "Jane Doe") ++ strOf ".jpg"]) := by
  have h := c10_theorem (strOf "Jane Doe") [] (by decide) (by decide) (by decide) (by decide)
    (by decide) (by decide)
  exact ⟨by decide, h.1, h.2⟩

/-- C10 counterexample: the single-word name "." (a word under the claim's
hypotheses, which exclude only underscores and path separators) is stored
as `..jpg`, but `os.path.splitext` does not strip the extension of a
basename made of leading dots, so the listing displays `..jpg` rather
than the trimmed original ".". -/
theorem c10_counterexample :
    wordsSingleSpaced (trimChars (strOf ".")) ∧
    register_face ⟨strOf ".", [], true, true⟩ = .success (strOf "..jpg") ∧
    list_registered_faces true [strOf "..jpg"] = [(strOf "..jpg", strOf "..jpg")] ∧
    strOf "..jpg" ≠ trimChars (strOf ".") := by
  refine ⟨by decide, by decide, by decide, by decide⟩

end FaceAI
